import Mathlib

/-!
Verification of the shopify-printful webhook bridge.

This file gives a shallow embedding of the decision logic of the bridge:

* the structured-SKU decoder and variant-catalog resolver
  (src/api/shopify-webhook.js, src/api/variant-map.js),
* the personalization-number extractor and the per-line-item
  artwork/upload pipeline (src/api/shopify-webhook.js),
* the two-phase draft/confirm order submission with idempotent
  duplicate handling (src/api/shopify-webhook.js),
* the order-webhook authentication gate with its diagnostic bypass
  (src/api/shopify-webhook.js),
* the provider-webhook signature verifier and shipment-event handler
  (src/api/printful-webhook.js),
* the upload cache (uploadOrReuse draft in src/unnamed/part_005).

External effects (HTTP calls, the HMAC primitives of the crypto library,
image compositing) are modelled as oracle functions supplied through an
environment record; everything the JavaScript computes itself is
translated directly.  JavaScript strings are modelled as Lean `String`
with absent (`undefined`) values modelled as `Option` or, where the code
relies on `||` falsiness, as the empty string.  All string operations are
implemented by structural recursion on the character list so that every
definition evaluates inside the kernel.
-/

namespace PrintfulBridge

/-! ## Generic JavaScript-style string helpers -/

/-- Characters removed by the JavaScript `String.prototype.trim` that occur
in the inputs considered here (ASCII whitespace). -/
def isJsSpace (c : Char) : Bool :=
  c = ' ' || c = '\t' || c = '\n' || c = '\r' || c = '\x0b' || c = '\x0c'

/-- Trim ASCII whitespace from both ends of a character list. -/
def trimChars (l : List Char) : List Char :=
  ((l.dropWhile isJsSpace).reverse.dropWhile isJsSpace).reverse

/-- JavaScript `s.trim()`. -/
def jsTrim (s : String) : String :=
  String.mk (trimChars s.data)

/-- Split a character list on a separator character.  Mirrors JavaScript
`s.split(sep)` for a one-character separator: the empty string yields
`[""]` and adjacent separators yield empty segments. -/
def listSplitOn (sep : Char) : List Char → List (List Char)
  | [] => [[]]
  | c :: rest =>
    let r := listSplitOn sep rest
    if c = sep then [] :: r
    else
      match r with
      | [] => [[c]]
      | h :: t => (c :: h) :: t

/-- JavaScript `s.split(sep)` for a one-character separator. -/
def jsSplit (sep : Char) (s : String) : List String :=
  (listSplitOn sep s.data).map String.mk

/-- Join strings with a one-character separator (JavaScript `arr.join(sep)`). -/
def joinWith (sep : Char) : List String → String
  | [] => ""
  | [s] => s
  | s :: rest => s ++ String.mk [sep] ++ joinWith sep rest

/-- JavaScript `a || b` on strings: the empty string is falsy. -/
def jsOrS (a b : String) : String :=
  if a = "" then b else a

/-- JavaScript `a || b` where `a` is a possibly-absent number and `0` is
falsy (used for `order.order_number || order.id`). -/
def jsOrN (a : Option Nat) (b : Nat) : Nat :=
  match a with
  | some n => if n = 0 then b else n
  | none => b

/-- Lower-case a string character by character (ASCII part of the
JavaScript `toLowerCase`). -/
def toLowerStr (s : String) : String :=
  String.mk (s.data.map Char.toLower)

/-- Does the list start with the given pattern? -/
def listStartsWith : List Char → List Char → Bool
  | [], _ => true
  | _ :: _, [] => false
  | p :: ps, c :: cs => p = c && listStartsWith ps cs

/-- Does the pattern occur as a contiguous sublist? -/
def listHasSub (pat : List Char) : List Char → Bool
  | [] => pat.isEmpty
  | c :: rest => listStartsWith pat (c :: rest) || listHasSub pat rest

/-- Substring test (JavaScript `s.includes(pat)`). -/
def containsSub (s pat : String) : Bool :=
  listHasSub pat.data s.data

/-- Nonempty all-digit test, the JavaScript regex `/^\d+$/`. -/
def isDigitsStr (s : String) : Bool :=
  !s.data.isEmpty && s.data.all Char.isDigit

/-- Strip trailing slashes, the JavaScript `replace(/\/+$/, "")` applied to
every environment-derived base URL in the source. -/
def stripTrailingSlashes (s : String) : String :=
  String.mk ((s.data.reverse.dropWhile (· = '/')).reverse)

/-! ## Structured SKU decoder (src/api/shopify-webhook.js, parseStructuredSku) -/

/-- The value returned by `parseStructuredSku`: the verbatim template
reference and the normalized variant key. -/
structure ParsedSku where
  templateRef : String
  variantKey : String
  deriving DecidableEq, Repr

/-- `normalize` from src/api/shopify-webhook.js line 22: upper-case and
strip every character outside `[A-Z0-9]`. -/
def normalize (s : String) : String :=
  String.mk ((s.data.map Char.toUpper).filter fun c =>
    ('A' ≤ c && c ≤ 'Z') || ('0' ≤ c && c ≤ '9'))

/-- `parseStructuredSku` from src/api/shopify-webhook.js lines 13-25:
trim, split on underscores, fail below four segments or on an empty
(trimmed) first segment; the variant key joins the normalized product
code, middle color segments and size with underscores. -/
def parseStructuredSku (rawSku : String) : Option ParsedSku :=
  let parts := jsSplit '_' (jsTrim rawSku)
  if parts.length < 4 then none
  else
    let templateRef := jsTrim (parts.headD "")
    let productCode := parts.getD 1 ""
    let size := parts.getLastD ""
    let color := joinWith '_' ((parts.drop 2).dropLast)
    if templateRef = "" then none
    else some ⟨templateRef, joinWith '_' ([productCode, color, size].map normalize)⟩

/-- The decoder exactly as the specification words it (claim C2): template
reference is the first segment verbatim, with no inner trim. -/
def skuDecodeClaim (rawSku : String) : Option ParsedSku :=
  let parts := jsSplit '_' (jsTrim rawSku)
  if parts.length < 4 ∨ parts.headD "" = "" then none
  else
    some ⟨parts.headD "",
      joinWith '_' ([parts.getD 1 "", joinWith '_' ((parts.drop 2).dropLast),
        parts.getLastD ""].map normalize)⟩

/-- The decoder as the specification words it, amended only by trimming the
first segment before using it as the template reference (the code applies
`String(parts[0] || "").trim()`). -/
def skuDecodeAmended (rawSku : String) : Option ParsedSku :=
  let parts := jsSplit '_' (jsTrim rawSku)
  if parts.length < 4 ∨ jsTrim (parts.headD "") = "" then none
  else
    some ⟨jsTrim (parts.headD ""),
      joinWith '_' ([parts.getD 1 "", joinWith '_' ((parts.drop 2).dropLast),
        parts.getLastD ""].map normalize)⟩

/-! ## Variant catalog (src/api/variant-map.js) -/

/-- The static variant catalog of src/api/variant-map.js.  The source file
lists the seven complete Bella+Canvas 3001 entries and then breaks off in
the middle of a Gildan 18500 entry (`"G18500_BLK_S":` with no value), so
only the complete entries are modelled. -/
def productColorSizeToVariant : List (String × Nat) :=
  [("BC3001_WHT_XS", 24351),
   ("BC3001_WHT_S", 24352),
   ("BC3001_WHT_M", 24353),
   ("BC3001_WHT_L", 24354),
   ("BC3001_WHT_XL", 24355),
   ("BC3001_WHT_2XL", 24356),
   ("BC3001_WHT_3XL", 24357)]

/-- `productColorSizeToVariant[variantKey]` followed by the `if (!vId)`
falsiness check of the handler: an absent key, like a zero value, is a
miss. -/
def lookupVariant (key : String) : Option Nat :=
  match productColorSizeToVariant.lookup key with
  | some v => if v = 0 then none else some v
  | none => none

/-! ## Personalization-number extractor
(src/api/shopify-webhook.js, extractCustomNumberFromLineItem) -/

/-- One line-item custom property; absent JavaScript fields are the empty
string (the code immediately coerces them with `String(x || "")`). -/
structure PropKV where
  name : String := ""
  key : String := ""
  value : String := ""
  deriving DecidableEq, Repr

/-- One Shopify line item, restricted to the fields the handler reads. -/
structure LineItem where
  sku : String := ""
  title : String := ""
  productId : Nat := 0
  quantity : Option Nat := none
  properties : List PropKV := []
  customProperties : List PropKV := []
  deriving DecidableEq, Repr

/-- `configuredNumberKeys` from src/api/shopify-webhook.js lines 60-66:
split the `CUSTOM_NUMBER_FIELD_KEYS` value on commas, trim, lower-case and
drop empties. -/
def configuredNumberKeys (raw : String) : List String :=
  ((jsSplit ',' raw).map fun k => toLowerStr (jsTrim k)).filter fun k => k ≠ ""

/-- `isNoneLikeValue`: values meaning explicit absence. -/
def isNoneLikeValue (v : String) : Bool :=
  let s := toLowerStr (jsTrim v)
  s = "none" || s = "no" || s = "n/a" || s = "na"

/-- `isNumberFieldName`, the regex `/number|jersey|shirt|custom/i`. -/
def isNumberFieldName (name : String) : Bool :=
  let n := toLowerStr name
  containsSub n "number" || containsSub n "jersey" ||
    containsSub n "shirt" || containsSub n "custom"

/-- The property list scanned: `properties` then `custom_properties`. -/
def propsOf (li : LineItem) : List PropKV :=
  li.properties ++ li.customProperties

/-- The first loop of `extractCustomNumberFromLineItem`: walk the
properties; a name-matched property with a none-like value decides `null`
(`some none`), one with an all-digit value decides that value
(`some (some v)`); otherwise the loop falls through (`none`). -/
def numberScanNamed (keys : List String) : List PropKV → Option (Option String)
  | [] => none
  | p :: rest =>
    let name := jsTrim (jsOrS p.name p.key)
    let value := jsTrim p.value
    if name = "" ∨ value = "" then numberScanNamed keys rest
    else
      let isTargetField :=
        if keys.isEmpty then isNumberFieldName name
        else keys.contains (toLowerStr name)
      if !isTargetField then numberScanNamed keys rest
      else if isNoneLikeValue value then some none
      else if isDigitsStr value then some (some value)
      else numberScanNamed keys rest

/-- The fallback loop: the first all-digit value of any property,
regardless of its name. -/
def numberScanAny : List PropKV → Option String
  | [] => none
  | p :: rest =>
    let value := jsTrim p.value
    if isDigitsStr value then some value else numberScanAny rest

/-- `extractCustomNumberFromLineItem` from src/api/shopify-webhook.js
lines 68-99: named scan first; if it does not decide and keys are
configured, `null`; otherwise the name-blind digit fallback. -/
def extractCustomNumberFromLineItem (keysRaw : String) (li : LineItem) : Option String :=
  let keys := configuredNumberKeys keysRaw
  match numberScanNamed keys (propsOf li) with
  | some r => r
  | none => if keys.isEmpty then numberScanAny (propsOf li) else none

/-! ## Artwork URL derivation and composite naming
(src/api/shopify-webhook.js lines 37-133) -/

/-- `artUrlFromHandle`, with the base already slash-stripped. -/
def artUrlFromHandle (base handle : String) : String :=
  base ++ "/" ++ handle ++ ".png"

/-- `placementArtUrl`. -/
def placementArtUrl (base templateRef placement : String) : String :=
  base ++ "/" ++ templateRef ++ "_" ++ placement ++ ".png"

/-- `numberArtUrl`. -/
def numberArtUrl (base templateRef customNumber : String) : String :=
  base ++ "/" ++ templateRef ++ "_" ++ customNumber ++ ".png"

/-- One character of `sanitizeFilePart`: anything outside `[a-z0-9_-]`
becomes a dash. -/
def sanChar (c : Char) : Char :=
  if ('a' ≤ c && c ≤ 'z') || ('0' ≤ c && c ≤ '9') || c = '_' || c = '-' then c
  else '-'

/-- Collapse runs of dashes to a single dash (the global dash-run
replacement of `sanitizeFilePart`). -/
def collapseDashes : List Char → List Char
  | [] => []
  | c :: rest =>
    let r := collapseDashes rest
    if c = '-' then
      match r with
      | '-' :: _ => r
      | _ => c :: r
    else c :: r

/-- `sanitizeFilePart` from src/api/shopify-webhook.js line 112-114.
After collapsing, the edge strip of `replace(/^-|-$/g, "")` equals
dropping leading and trailing dashes. -/
def sanitizeFilePart (v : String) : String :=
  let l := collapseDashes ((v.data.map Char.toLower).map sanChar)
  String.mk (((l.dropWhile (· = '-')).reverse.dropWhile (· = '-')).reverse)

/-- `compositeFileName`. -/
def compositeFileName (handle templateRef customNumber : String) : String :=
  sanitizeFilePart (jsOrS handle "art") ++ "__" ++
    sanitizeFilePart (jsOrS templateRef "template") ++ "__num-" ++
    sanitizeFilePart (jsOrS customNumber "0") ++ ".png"

/-- Consume the pattern from the front of the list, returning the rest. -/
def dropMatch : List Char → List Char → Option (List Char)
  | [], rest => some rest
  | _ :: _, [] => none
  | m :: ms, c :: cs => if c = m then dropMatch ms cs else none

/-- The suffix after the first occurrence of the marker, if any. -/
def afterMarker (m : List Char) : List Char → Option (List Char)
  | [] => none
  | c :: rest =>
    match dropMatch m (c :: rest) with
    | some rem => some rem
    | none => afterMarker m rest

/-- The pathname of an absolute URL, approximating `new URL(u).pathname`
for the scheme-and-host URLs the handler builds (no query or fragment):
everything from the first slash after the `://` marker.  A string without
the marker makes the URL constructor throw, modelled as `none`. -/
def urlPathname (u : String) : Option String :=
  match afterMarker ("://".data) u.data with
  | none => none
  | some hostPath => some (String.mk (hostPath.dropWhile (· ≠ '/')))

/-- `deriveRemotePathFromSourceUrl` from src/api/shopify-webhook.js lines
123-133: the source URL directory path plus the composite file name, or
just the file name when the URL does not parse or has no directory. -/
def deriveRemotePathFromSourceUrl (sourceUrl fileName : String) : String :=
  match urlPathname sourceUrl with
  | none => fileName
  | some pathname =>
    let parts := ((jsSplit '/' pathname).filter fun s => s ≠ "").dropLast
    let dir := joinWith '/' parts
    if dir = "" then fileName else dir ++ "/" ++ fileName

/-! ## Order handler data model (src/api/shopify-webhook.js) -/

/-- A Shopify address; absent fields are the empty string. -/
structure Address where
  firstName : String := ""
  lastName : String := ""
  address1 : String := ""
  city : String := ""
  provinceCode : String := ""
  province : String := ""
  countryCode : String := ""
  country : String := ""
  zip : String := ""
  phone : String := ""
  deriving DecidableEq, Repr

/-- The customer object, restricted to the fields read. -/
structure Customer where
  firstName : String := ""
  phone : String := ""
  defaultAddress : Option Address := none
  deriving DecidableEq, Repr

/-- An inbound Shopify order, restricted to the fields read. -/
structure ShopifyOrder where
  id : Nat := 0
  orderNumber : Option Nat := none
  email : String := ""
  shippingAddress : Option Address := none
  customer : Option Customer := none
  lineItems : List LineItem := []
  deriving DecidableEq, Repr

/-- The recipient block of the Printful order payload. -/
structure Recipient where
  name : String
  address1 : String
  city : String
  stateCode : String
  countryCode : String
  zip : String
  email : String
  phone : String
  deriving DecidableEq, Repr

/-- The recipient construction of the handler, with its `||` fallbacks. -/
def recipientOf (o : ShopifyOrder) : Recipient :=
  let sa := (o.shippingAddress.orElse fun _ =>
    o.customer.bind (·.defaultAddress)).getD {}
  { name := jsOrS (joinWith ' ' (([sa.firstName, sa.lastName].filter (· ≠ ""))))
      (jsOrS ((o.customer.map (·.firstName)).getD "") "Customer"),
    address1 := jsOrS sa.address1 "N/A",
    city := jsOrS sa.city "N/A",
    stateCode := jsOrS sa.provinceCode sa.province,
    countryCode := jsOrS sa.countryCode (jsOrS sa.country "US"),
    zip := sa.zip,
    email := o.email,
    phone := jsOrS sa.phone ((o.customer.map (·.phone)).getD "") }

/-- One file reference on a Printful order item. -/
structure PrintfulFile where
  ftype : String
  id : Nat
  deriving DecidableEq, Repr

/-- One item of the Printful order payload. -/
structure PrintfulItem where
  variantId : Nat
  quantity : Nat
  files : List PrintfulFile
  deriving DecidableEq, Repr

/-- The draft order payload sent to the provider (`store_id` and
`confirm: false` are constants taken from the environment and are not
modelled). -/
structure DraftOrder where
  recipient : Recipient
  items : List PrintfulItem
  externalId : String
  shipping : String := "STANDARD"
  deriving DecidableEq, Repr

/-- A parsed JSON body of a provider response, restricted to the fields
the handler reads.  `resultStr` is `payload.result` when that field is a
string (as in error payloads); `resultId` is `payload.result.id` when it
is an object. -/
structure PrintfulPayload where
  errorApiCode : Option String := none
  errorMessage : Option String := none
  resultStr : Option String := none
  resultId : Option Nat := none
  deriving DecidableEq, Repr

/-- An outbound HTTP response as the handler sees it: the `ok` flag and
the parsed JSON payload. -/
structure HttpResp where
  ok : Bool
  payload : PrintfulPayload
  deriving DecidableEq, Repr

/-- Outbound requests issued by the order handler, the projection of its
`trace.requests` log used by the theorems. -/
inductive TraceReq where
  | productLookup (productId : Nat) (handle : String)
  | numberHead (url : String)
  | compositeUpload (remotePath : String)
  | fileUpload (url : String)
  | placementHead (url : String)
  | orderCreate (payload : DraftOrder)
  | orderConfirm (printfulOrderId : Nat)
  deriving DecidableEq, Repr

/-- The environment of the order handler: configuration values and the
outcomes of its external calls, as oracle functions.  `none` models a
thrown error (a failed fetch or a non-ok response). -/
structure SEnv where
  secret : String
  debugTokenEnv : Option String
  hmacB64 : String → String → String
  numberKeysRaw : String
  artBaseRaw : String
  handleOf : Nat → Option String
  headOk : String → Bool
  uploadFile : String → Option Nat
  compositeUpload : String → Option String
  draft : HttpResp
  confirm : HttpResp

/-- The slash-stripped artwork base URL. -/
def artBaseOf (env : SEnv) : String :=
  stripTrailingSlashes env.artBaseRaw

/-- The result of processing one line item. -/
structure LineItemResult where
  item : Option PrintfulItem
  missingEntry : Option String
  reqs : List TraceReq
  customNumber : Option String
  deriving Repr

/-- The placement loop of the handler: HEAD-probe each placement URL and
upload the ones that exist; a failed placement upload is logged and
skipped. -/
def processPlacements (env : SEnv) (templateRef : String) :
    List String → List PrintfulFile × List TraceReq
  | [] => ([], [])
  | p :: rest =>
    let url := placementArtUrl (artBaseOf env) templateRef p
    let (fs, rs) := processPlacements env templateRef rest
    if env.headOk url then
      match env.uploadFile url with
      | some fid => (⟨p, fid⟩ :: fs, .placementHead url :: .fileUpload url :: rs)
      | none => (fs, .placementHead url :: .fileUpload url :: rs)
    else (fs, .placementHead url :: rs)

/-- The fixed placement list of the handler. -/
def placementNames : List String := ["front", "back", "sleeve_left", "sleeve_right"]

/-- The tail of the line-item loop after the default artwork URL is
settled: upload the default file (failure makes the whole item missing),
then the placement loop, then assemble the item. -/
def finishLineItem (env : SEnv) (li : LineItem) (vId : Nat) (templateRef : String)
    (cn : Option String) (defaultUrl : String) (reqs : List TraceReq) : LineItemResult :=
  match env.uploadFile defaultUrl with
  | none =>
    { item := none, missingEntry := some (jsOrS li.sku li.title),
      reqs := reqs ++ [.fileUpload defaultUrl], customNumber := cn }
  | some mainFileId =>
    let (placementFiles, placementReqs) := processPlacements env templateRef placementNames
    { item := some
        { variantId := vId, quantity := li.quantity.getD 1,
          files := ⟨"default", mainFileId⟩ :: placementFiles },
      missingEntry := none,
      reqs := reqs ++ [.fileUpload defaultUrl] ++ placementReqs,
      customNumber := cn }

/-- The body of the line-item loop of the handler (src/api/shopify-webhook.js
lines 361-575): SKU decode, catalog lookup, handle lookup, optional
personalization composite, default upload, placement uploads.  Any failure
up to and including the default upload records the SKU (or title) as
missing and produces no item. -/
def processLineItem (env : SEnv) (li : LineItem) : LineItemResult :=
  match parseStructuredSku li.sku with
  | none =>
    { item := none, missingEntry := some (jsOrS li.sku li.title), reqs := [],
      customNumber := none }
  | some ps =>
    match lookupVariant ps.variantKey with
    | none =>
      { item := none, missingEntry := some (jsOrS li.sku li.title), reqs := [],
        customNumber := none }
    | some vId =>
      match env.handleOf li.productId with
      | none =>
        { item := none, missingEntry := some (jsOrS li.sku li.title), reqs := [],
          customNumber := none }
      | some handle =>
        let mainUrl := artUrlFromHandle (artBaseOf env) handle
        let cn := extractCustomNumberFromLineItem env.numberKeysRaw li
        match cn with
        | none =>
          finishLineItem env li vId ps.templateRef none mainUrl
            [.productLookup li.productId handle]
        | some n =>
          let nUrl := numberArtUrl (artBaseOf env) ps.templateRef n
          let reqs0 := [TraceReq.productLookup li.productId handle, .numberHead nUrl]
          if env.headOk nUrl then
            let remotePath := deriveRemotePathFromSourceUrl mainUrl
              (compositeFileName handle ps.templateRef n)
            match env.compositeUpload remotePath with
            | none =>
              { item := none, missingEntry := some (jsOrS li.sku li.title),
                reqs := reqs0, customNumber := some n }
            | some publicUrl =>
              finishLineItem env li vId ps.templateRef (some n) publicUrl
                (reqs0 ++ [.compositeUpload remotePath])
          else
            finishLineItem env li vId ps.templateRef (some n) mainUrl reqs0

/-! ## Duplicate detection and two-phase submission
(src/api/shopify-webhook.js lines 265-270 and 597-680) -/

/-- `isPrintfulExternalIdDuplicate`: the provider error code `OR-13`, or
the lower-cased error message (falling back to a string `result`)
containing the duplicate marker. -/
def isPrintfulExternalIdDuplicate (p : PrintfulPayload) : Bool :=
  if p.errorApiCode.getD "" = "OR-13" then true
  else
    containsSub (toLowerStr (jsOrS (p.errorMessage.getD "") (p.resultStr.getD "")))
      "external id already exists"

/-- The business outcome carried by the handler HTTP response body. -/
inductive OrderOutcome where
  | methodNotAllowed
  | unauthorized
  | invalidJson
  | noValidItems (missing : List String)
  | dupSuccess (externalId : String) (missing : List String)
  | confirmedOk (printfulOrderId : Nat) (missing : List String)
  | submitFailed (missing : List String)
  deriving DecidableEq, Repr

/-- The HTTP status code the handler pairs with each outcome: real error
codes only for authentication, malformed JSON and wrong method; every
business outcome, failures included, is a 200. -/
def statusOf : OrderOutcome → Nat
  | .methodNotAllowed => 405
  | .unauthorized => 401
  | .invalidJson => 400
  | _ => 200

/-- The `ok` flag of the response body. -/
def outcomeOk : OrderOutcome → Bool
  | .dupSuccess _ _ => true
  | .confirmedOk _ _ => true
  | _ => false

/-- The submission phase: create the draft; a non-ok creation carrying the
duplicate-external-id signal is idempotent success, any other non-ok
creation, a missing draft id, or a non-ok confirm is a structured failure;
otherwise confirm and succeed.  The second component lists the provider
calls issued. -/
def submitOrder (draft confirm : HttpResp) (payload : DraftOrder)
    (missing : List String) : OrderOutcome × List TraceReq :=
  if !draft.ok then
    if isPrintfulExternalIdDuplicate draft.payload then
      (.dupSuccess payload.externalId missing, [.orderCreate payload])
    else (.submitFailed missing, [.orderCreate payload])
  else
    let oid := draft.payload.resultId.getD 0
    if oid = 0 then (.submitFailed missing, [.orderCreate payload])
    else if !confirm.ok then
      (.submitFailed missing, [.orderCreate payload, .orderConfirm oid])
    else (.confirmedOk oid missing, [.orderCreate payload, .orderConfirm oid])

/-! ## Authentication gate of the order webhook
(src/api/shopify-webhook.js lines 276-289) -/

/-- `debugBypass`: the query token must be present, truthy (nonempty) and
exactly equal to the configured `DEBUG_TOKEN`; an unset or empty
`DEBUG_TOKEN` can never validate any token. -/
def debugBypassActive (dbgEnv tokenParam : Option String) : Bool :=
  match tokenParam with
  | some t => if t = "" then false else if dbgEnv = some t then true else false
  | none => false

/-- The authentication decision: bypass, or else a present nonempty HMAC
header that equals the expected base64 digest.  `true` means the body may
be processed. -/
def shopifyAuthOutcome (dbgEnv tokenParam hmacHeader : Option String)
    (digest : String) : Bool :=
  if debugBypassActive dbgEnv tokenParam then true
  else
    let h := hmacHeader.getD ""
    if h = "" then false
    else if digest = h then true else false

/-- An inbound request to the order webhook.  `parsed` stands for the
result of `JSON.parse` on the raw body (`none` = malformed JSON). -/
structure SReq where
  method : String := "POST"
  tokenParam : Option String := none
  hmacHeader : Option String := none
  rawBody : String := ""
  parsed : Option ShopifyOrder := none

/-- The order-webhook handler (src/api/shopify-webhook.js lines 273-681):
method gate, authentication gate, JSON parse, per-line-item resolution,
then either the no-valid-items failure or the two-phase submission. -/
def shopifyHandler (env : SEnv) (req : SReq) : OrderOutcome × List TraceReq :=
  if req.method ≠ "POST" then (.methodNotAllowed, [])
  else if shopifyAuthOutcome env.debugTokenEnv req.tokenParam req.hmacHeader
      (env.hmacB64 env.secret req.rawBody) = false then (.unauthorized, [])
  else
    match req.parsed with
    | none => (.invalidJson, [])
    | some order =>
      let results := order.lineItems.map (processLineItem env)
      let items := results.filterMap (·.item)
      let missing := results.filterMap (·.missingEntry)
      let reqs := (results.map (·.reqs)).flatten
      if items.isEmpty then (.noValidItems missing, reqs)
      else
        let payload : DraftOrder :=
          { recipient := recipientOf order, items := items,
            externalId := "NBHL" ++ toString (jsOrN order.orderNumber order.id) }
        let (outcome, subReqs) := submitOrder env.draft env.confirm payload missing
        (outcome, reqs ++ subReqs)

/-! ## Provider-webhook signature verification
(src/api/printful-webhook.js lines 24-30) -/

/-- `verifySignature`: the whole `x-pf-signature` header value must equal
the single HMAC-SHA256 hex digest of the raw body under the webhook
secret.  A missing header or secret fails closed.  The length guard plus
`crypto.timingSafeEqual` amounts to string equality.  The HMAC primitive
is an oracle parameter. -/
def verifySignature (hmacHex : String → String → String)
    (secret sigHeader raw : String) : Bool :=
  if sigHeader = "" ∨ secret = "" then false
  else
    let digest := hmacHex secret raw
    sigHeader.length == digest.length && sigHeader == digest

/-- Scheme B token extraction, modelled from the specification words of
claim C1: split the header on commas and spaces, drop empties, strip an
optional `sha1=`, `sha256=` or `v1=` algorithm tag, and strip optional
surrounding double quotes. -/
def schemeBTokens (header : String) : List String :=
  let rawTokens := ((listSplitOn ',' header.data).map (listSplitOn ' ')).flatten
  let tagged := rawTokens.filter fun t => !t.isEmpty
  tagged.map fun t =>
    let t1 :=
      match dropMatch ("sha256=".data) t with
      | some r => r
      | none =>
        match dropMatch ("sha1=".data) t with
        | some r => r
        | none =>
          match dropMatch ("v1=".data) t with
          | some r => r
          | none => t
    let t2 := match t1 with
      | '"' :: rest => rest
      | l => l
    let t3 := match t2.reverse with
      | '"' :: rest => rest.reverse
      | _ => t2
    String.mk t3

/-- Scheme B verification as claim C1 words it: compute the three
candidate digests (HMAC-SHA256 hex, HMAC-SHA256 base64, HMAC-SHA1 hex, as
oracles) and accept iff some provided token equals some candidate. -/
def schemeBSpecVerify (h256hex h256b64 h1hex : String → String → String)
    (secret header raw : String) : Bool :=
  let cands := [h256hex secret raw, h256b64 secret raw, h1hex secret raw]
  (schemeBTokens header).any fun t => cands.contains t

/-! ## Shipment-event handler (src/api/printful-webhook.js lines 86-183) -/

/-- One shipment of a provider event; absent fields are empty. -/
structure Shipment where
  trackingNumber : String := ""
  trackingNumbers : List String := []
  trackingUrl : String := ""
  trackingUrls : List String := []
  carrier : String := ""
  carrierCode : String := ""
  service : String := ""
  deriving DecidableEq, Repr

/-- The tracking block built for a Shopify fulfillment. -/
structure Tracking where
  number : String
  url : String
  company : String
  deriving DecidableEq, Repr

/-- The tracking construction of the handler, with the generic
`"Carrier"` fallback. -/
def trackingOf (s : Shipment) : Tracking :=
  { number := jsOrS s.trackingNumber (s.trackingNumbers.headD ""),
    url := jsOrS s.trackingUrl (s.trackingUrls.headD ""),
    company := jsOrS s.carrier (jsOrS s.carrierCode (jsOrS s.service "Carrier")) }

/-- A parsed provider webhook body.  `externalId` is the token after the
nested `data.order.external_id` / `order.external_id` / `external_id`
fallbacks, and `shipments` after `data.shipments` / `shipments` / `[]`. -/
structure PFBody where
  event : Option String := none
  typ : Option String := none
  externalId : String := ""
  shipments : List Shipment := []
  deriving DecidableEq, Repr

/-- `body?.event || body?.type || "unknown"`. -/
def eventOf (b : PFBody) : String :=
  jsOrS (b.event.getD "") (jsOrS (b.typ.getD "") "unknown")

/-- One line item of the Shopify order fetched back by the handler. -/
structure PFLineItem where
  id : Nat
  fulfillableQuantity : Option Nat := none
  deriving DecidableEq, Repr

/-- The Shopify order fetched back by the handler. -/
structure PFOrder where
  lineItems : List PFLineItem := []
  deriving DecidableEq, Repr

/-- Line items with remaining fulfillable quantity
(`li.fulfillable_quantity ?? 0 > 0`). -/
def fulfillableIds (o : PFOrder) : List Nat :=
  (o.lineItems.filter fun li => 0 < li.fulfillableQuantity.getD 0).map (·.id)

/-- State-changing Shopify calls issued by the shipment handler. -/
inductive PFAction where
  | createFulfillment (orderId : String) (tracking : Tracking)
      (lineItemIds : List Nat)
  | markStatus (orderId : String) (status : String)
  deriving DecidableEq, Repr

/-- The environment of the shipment handler.  `findByName` models the
order-name search (`.error` = the underlying fetch threw, which the
handler does not catch); `getOrder` models the order fetch (`none` = the
caught fetch failure); `createOk` tells whether a fulfillment-creation
call succeeds. -/
structure PFEnv where
  secret : String
  hmacHex : String → String → String
  findByName : String → Except Unit (Option String)
  getOrder : String → Option PFOrder
  createOk : String → Tracking → List Nat → Bool

/-- An inbound request to the shipment webhook. -/
structure PFReq where
  method : String := "POST"
  sigHeader : String := ""
  rawBody : String := ""
  parsed : Option PFBody := none

/-- The handler response, by outcome. -/
inductive PFResponse where
  | methodNotAllowed
  | unauthorized
  | invalidJson
  | crashed
  | ignoredEvent (event : String)
  | ignoredNoExternalId
  | fetchFailed
  | inProgress
  | alreadyFulfilled
  | fulfilled (count : Nat)
  | fulfillmentFailed
  | handledOther (event : String)
  deriving DecidableEq, Repr

/-- The external id pattern `/^shopify-(\d+)$/i`: the digits when the
token is the case-insensitive prefix `shopify-` followed only by digits. -/
def matchShopifyExt (ext : String) : Option String :=
  let l := ext.data
  if (l.take 8).map Char.toLower = "shopify-".data then
    let rest := l.drop 8
    if !rest.isEmpty && rest.all Char.isDigit then some (String.mk rest) else none
  else none

/-- The alternate pattern `/^NBHL(\d+)$/i`. -/
def matchNbhlExt (ext : String) : Option String :=
  let l := ext.data
  if (l.take 4).map Char.toLower = "nbhl".data then
    let rest := l.drop 4
    if !rest.isEmpty && rest.all Char.isDigit then some (String.mk rest) else none
  else none

/-- Order-identity resolution of the handler: direct `shopify-<digits>`
pattern; else name lookup on the raw token; else the `NBHL<digits>`
pattern turned into a `#<digits>` name lookup.  An uncaught lookup error
propagates. -/
def resolveOrderId (env : PFEnv) (ext : String) : Except Unit (Option String) :=
  match matchShopifyExt ext with
  | some d => .ok (some d)
  | none =>
    match env.findByName ext with
    | .error e => .error e
    | .ok (some oid) => .ok (some oid)
    | .ok none =>
      match matchNbhlExt ext with
      | some d2 => env.findByName ("#" ++ d2)
      | none => .ok none

/-- Case-insensitive substring match of any pattern, the JavaScript
`/p1|p2|.../i.test(event)`. -/
def eventMatches (pats : List String) (e : String) : Bool :=
  pats.any fun p => containsSub (toLowerStr e) p

/-- The five event patterns the handler reacts to at all. -/
def handledEventPats : List String :=
  ["package_shipped", "order_updated", "order_fulfilled", "order_in_process",
   "order_packaged"]

/-- The intermediate-stage patterns. -/
def inProcessPats : List String := ["order_in_process", "order_packaged"]

/-- The shipped/fulfilled patterns. -/
def shippedPats : List String := ["package_shipped", "order_fulfilled"]

/-- The fulfillment-creation loop: one creation call per shipment, all
referencing the same fulfillable line items; a failed call aborts the
loop (the handler catch).  Returns whether all calls succeeded and the
calls issued. -/
def runShipments (env : PFEnv) (oid : String) (ids : List Nat) :
    List Shipment → Bool × List PFAction
  | [] => (true, [])
  | s :: rest =>
    let t := trackingOf s
    let a := PFAction.createFulfillment oid t ids
    if env.createOk oid t ids then
      let (b, as) := runShipments env oid ids rest
      (b, a :: as)
    else (false, [a])

/-- The shipment-webhook handler (src/api/printful-webhook.js lines
86-183): method gate, signature gate, JSON parse, order-identity
resolution, event classification, order fetch, then the in-progress or
shipped/fulfilled transition.  The second component lists the
state-changing Shopify calls issued. -/
def pfHandler (env : PFEnv) (req : PFReq) : PFResponse × List PFAction :=
  if req.method ≠ "POST" then (.methodNotAllowed, [])
  else if verifySignature env.hmacHex env.secret req.sigHeader req.rawBody = false then
    (.unauthorized, [])
  else
    match req.parsed with
    | none => (.invalidJson, [])
    | some body =>
      let event := eventOf body
      match resolveOrderId env body.externalId with
      | .error _ => (.crashed, [])
      | .ok ridOpt =>
        if eventMatches handledEventPats event = false then (.ignoredEvent event, [])
        else
          match ridOpt with
          | none => (.ignoredNoExternalId, [])
          | some oid =>
            match env.getOrder oid with
            | none => (.fetchFailed, [])
            | some order =>
              let fulfillable := fulfillableIds order
              if eventMatches inProcessPats event then
                (.inProgress, [.markStatus oid "in_progress"])
              else if eventMatches shippedPats event then
                if fulfillable.isEmpty then
                  (.alreadyFulfilled, [.markStatus oid "fulfilled"])
                else
                  let (allOk, acts) := runShipments env oid fulfillable body.shipments
                  if allOk then
                    (.fulfilled body.shipments.length,
                      acts ++ [.markStatus oid "fulfilled"])
                  else (.fulfillmentFailed, acts)
              else (.handledOther event, [])

/-! ## Upload cache (uploadOrReuse, src/unnamed/part_005 lines 196-229) -/

/-- The provider response to one file-registration call: an HTTP failure
(the code throws), or an ok response whose `result.id` may be absent. -/
inductive UpResult where
  | fail
  | ok (id : Option Nat)
  deriving DecidableEq, Repr

/-- The persisted cache file plus a count of upload calls issued so far
(the count indexes the upload oracle, letting distinct calls answer
differently). -/
structure CacheSt where
  entries : List (String × Nat)
  uploads : Nat
  deriving DecidableEq, Repr

/-- The `if (cache[fileUrl])` truthiness check: a stored zero is falsy. -/
def jsHit (entries : List (String × Nat)) (url : String) : Option Nat :=
  match entries.lookup url with
  | some v => if v = 0 then none else some v
  | none => none

/-- `uploadOrReuse`: return the cached file id on a hit; otherwise issue
an upload call.  A thrown failure leaves the cache unchanged; a returned
id is stored under the source URL (an absent id is dropped by
`JSON.stringify` and stores nothing). -/
def uploadOrReuse (oracle : Nat → String → UpResult) (st : CacheSt)
    (url : String) : Except Unit (Option Nat) × CacheSt :=
  match jsHit st.entries url with
  | some id => (.ok (some id), st)
  | none =>
    match oracle st.uploads url with
    | .fail => (.error (), { st with uploads := st.uploads + 1 })
    | .ok none => (.ok none, { st with uploads := st.uploads + 1 })
    | .ok (some n) =>
      (.ok (some n), { entries := (url, n) :: st.entries, uploads := st.uploads + 1 })

/-- Run `k` successive `uploadOrReuse` invocations with the same source
URL, returning the final state. -/
def runCalls (oracle : Nat → String → UpResult) (url : String) :
    Nat → CacheSt → CacheSt
  | 0, st => st
  | k + 1, st => runCalls oracle url k (uploadOrReuse oracle st url).2

/-! ## Concrete fixtures used by the closed theorems and witnesses -/

/-- A digest oracle returning the fixed value `aa`. -/
def hmacAA : String → String → String := fun _ _ => "aa"

/-- A digest oracle returning the fixed value `bb`. -/
def hmacBB : String → String → String := fun _ _ => "bb"

/-- A digest oracle returning the fixed value `cc`. -/
def hmacCC : String → String → String := fun _ _ => "cc"

/-- An order-handler environment where every external call succeeds, no
placement or number file exists, and the draft and confirm calls succeed
with draft id 555. -/
def env0 : SEnv :=
  { secret := "whsec", debugTokenEnv := none,
    hmacB64 := fun _ _ => "digest",
    numberKeysRaw := "", artBaseRaw := "https://cdn.example",
    handleOf := fun _ => some "tee",
    headOk := fun _ => false,
    uploadFile := fun _ => some 101,
    compositeUpload := fun _ => some "u",
    draft := { ok := true, payload := { resultId := some 555 } },
    confirm := { ok := true, payload := {} } }

/-- The end-to-end scenario order of claim C3, with the catalog-matching
`WHT` spelling of the first SKU. -/
def order0 : ShopifyOrder :=
  { id := 9001, orderNumber := some 4021,
    lineItems := [{ sku := "71_BC3001_WHT_M", productId := 7 },
                  { sku := "99_UNKNOWN_RED_L", productId := 8 }] }

/-- The same order with the `WHITE` spelling claim C3 states. -/
def orderWhite : ShopifyOrder :=
  { id := 9001, orderNumber := some 4021,
    lineItems := [{ sku := "71_BC3001_WHITE_M", productId := 7 },
                  { sku := "99_UNKNOWN_RED_L", productId := 8 }] }

/-- An order with one undecodable SKU. -/
def orderBad : ShopifyOrder :=
  { id := 9001, orderNumber := some 4021,
    lineItems := [{ sku := "nope", productId := 7 }] }

/-- A correctly signed request carrying `order0`. -/
def req0 : SReq :=
  { method := "POST", hmacHeader := some "digest", rawBody := "body",
    parsed := some order0 }

/-- A correctly signed request carrying `orderWhite`. -/
def reqWhite : SReq :=
  { method := "POST", hmacHeader := some "digest", rawBody := "body",
    parsed := some orderWhite }

/-- A correctly signed request carrying `orderBad`. -/
def reqBad : SReq :=
  { method := "POST", hmacHeader := some "digest", rawBody := "body",
    parsed := some orderBad }

/-- A request with no HMAC header and no bypass token. -/
def reqNoHmac : SReq :=
  { method := "POST", hmacHeader := none, rawBody := "body",
    parsed := some order0 }

/-- The line item of claim C10: a digit-valued property whose name does
not resemble a number field. -/
def li10 : LineItem :=
  { sku := "71_BC3001_WHT_M", productId := 7,
    properties := [{ name := "foo", value := "42" }] }

/-- A shipment carrying only a tracking number. -/
def ship1 : Shipment := { trackingNumber := "TN1" }

/-- The shipment-event body of the claim C6 scenario. -/
def body1 : PFBody :=
  { event := some "package_shipped", externalId := "shopify-4021",
    shipments := [ship1] }

/-- The same event with zero shipments. -/
def body0ship : PFBody :=
  { event := some "package_shipped", externalId := "shopify-4021",
    shipments := [] }

/-- A Shopify order with one fulfillable line item. -/
def order11 : PFOrder := { lineItems := [{ id := 11, fulfillableQuantity := some 2 }] }

/-- A Shopify order with no fulfillable quantity left. -/
def order11z : PFOrder := { lineItems := [{ id := 11, fulfillableQuantity := some 0 }] }

/-- A shipment-handler environment resolving to `order11` where every
fulfillment creation succeeds. -/
def pfenvF : PFEnv :=
  { secret := "pf", hmacHex := fun _ _ => "hex",
    findByName := fun _ => .ok none,
    getOrder := fun _ => some order11,
    createOk := fun _ _ _ => true }

/-- The same environment resolving to the already-fulfilled `order11z`. -/
def pfenv0 : PFEnv := { pfenvF with getOrder := fun _ => some order11z }

/-- A correctly signed shipment request carrying `body1`. -/
def pfreqF : PFReq :=
  { method := "POST", sigHeader := "hex", rawBody := "b", parsed := some body1 }

/-- A correctly signed shipment request carrying `body0ship`. -/
def pfreqF0 : PFReq :=
  { method := "POST", sigHeader := "hex", rawBody := "b", parsed := some body0ship }

/-- A shipment request whose signature header does not match the digest. -/
def reqBadSig : PFReq :=
  { method := "POST", sigHeader := "wrong", rawBody := "b", parsed := none }

/-- A failed draft creation carrying the provider duplicate error code. -/
def draftDup : HttpResp :=
  { ok := false, payload := { errorApiCode := some "OR-13" } }

/-- A failed draft creation carrying the duplicate message substring. -/
def draftDupMsg : HttpResp :=
  { ok := false,
    payload := { errorMessage := some "Order with this External ID already exists" } }

/-- A successful confirm response. -/
def confirmOkResp : HttpResp := { ok := true, payload := {} }

/-- A minimal draft payload fixture. -/
def payloadW : DraftOrder :=
  { recipient := recipientOf {}, items := [], externalId := "NBHL9" }

/-- An upload oracle that fails on the first call and succeeds afterwards. -/
def failThenOk : Nat → String → UpResult :=
  fun i _ => if i = 0 then .fail else .ok (some 7)

/-- An upload oracle that always succeeds with file id 7. -/
def okSeven : Nat → String → UpResult := fun _ _ => .ok (some 7)

/-! ## Shared helper lemmas -/

/-- The fallback scan returns the first all-digit property value. -/
theorem numberScanAny_eq_find (ps : List PropKV) :
    numberScanAny ps =
      (ps.find? fun p => isDigitsStr (jsTrim p.value)).map fun p => jsTrim p.value := by
  induction ps with
  | nil => rfl
  | cons p rest ih =>
    by_cases h : isDigitsStr (jsTrim p.value) = true
    · simp [numberScanAny, List.find?, h]
    · simp only [Bool.not_eq_true] at h
      simp [numberScanAny, List.find?, h, ih]

/-- When every creation call succeeds, the shipment loop issues exactly
one creation per shipment, in order. -/
theorem runShipments_all_ok (env : PFEnv) (oid : String) (ids : List Nat)
    (l : List Shipment) (h : ∀ t, env.createOk oid t ids = true) :
    runShipments env oid ids l =
      (true, l.map fun s => PFAction.createFulfillment oid (trackingOf s) ids) := by
  induction l with
  | nil => rfl
  | cons s rest ih => simp [runShipments, h (trackingOf s), ih]

/-- The placement loop never issues an order-creation call. -/
theorem processPlacements_no_orderCreate (env : SEnv) (tr : String)
    (l : List String) (p : DraftOrder) :
    TraceReq.orderCreate p ∉ (processPlacements env tr l).2 := by
  induction l with
  | nil => simp [processPlacements]
  | cons x rest ih =>
    simp only [processPlacements]
    split
    · cases h : env.uploadFile (placementArtUrl (artBaseOf env) tr x) <;>
        simp [h, ih]
    · simp [ih]

/-- The line-item tail never issues an order-creation call beyond those
already in its request-list argument. -/
theorem finishLineItem_no_orderCreate (env : SEnv) (li : LineItem) (vId : Nat)
    (tr : String) (cn : Option String) (url : String) (reqs : List TraceReq)
    (p : DraftOrder) (h : TraceReq.orderCreate p ∉ reqs) :
    TraceReq.orderCreate p ∉ (finishLineItem env li vId tr cn url reqs).reqs := by
  unfold finishLineItem
  cases hu : env.uploadFile url with
  | none => simp [h]
  | some fid => simp [h, processPlacements_no_orderCreate]

/-- Processing one line item never issues an order-creation call. -/
theorem processLineItem_no_orderCreate (env : SEnv) (li : LineItem)
    (p : DraftOrder) : TraceReq.orderCreate p ∉ (processLineItem env li).reqs := by
  unfold processLineItem
  cases hp : parseStructuredSku li.sku with
  | none => simp [hp]
  | some ps =>
    simp only [hp]
    cases hv : lookupVariant ps.variantKey with
    | none => simp [hv]
    | some vId =>
      simp only [hv]
      cases hh : env.handleOf li.productId with
      | none => simp [hh]
      | some handle =>
        simp only [hh]
        cases hc : extractCustomNumberFromLineItem env.numberKeysRaw li with
        | none =>
          simp only [hc]
          exact finishLineItem_no_orderCreate _ _ _ _ _ _ _ _ (by simp)
        | some n =>
          simp only [hc]
          by_cases hho : env.headOk (numberArtUrl (artBaseOf env) ps.templateRef n) = true

          · simp only [hho, if_true]
            cases hcu : env.compositeUpload (deriveRemotePathFromSourceUrl
                (artUrlFromHandle (artBaseOf env) handle)
                (compositeFileName handle ps.templateRef n)) with
            | none => simp [hcu]
            | some u =>
              simp only [hcu]
              exact finishLineItem_no_orderCreate _ _ _ _ _ _ _ _ (by simp)
          · simp only [Bool.not_eq_true] at hho
            simp only [hho, Bool.false_eq_true, if_false]
            exact finishLineItem_no_orderCreate _ _ _ _ _ _ _ _ (by simp)

/-- Once the cache holds a (truthy) entry for a URL, further invocations
leave the state untouched. -/
theorem runCalls_hit (oracle : Nat → String → UpResult) (url : String)
    (k : Nat) (st : CacheSt) (id : Nat) (h : jsHit st.entries url = some id) :
    runCalls oracle url k st = st := by
  induction k with
  | zero => rfl
  | succ k ih => simp [runCalls, uploadOrReuse, h, ih]

/-! ## Claim C1 -/

/-- Claim C1 counterexample: a header consisting of the single token
`sha256=<hex digest>` must be accepted under the claimed Scheme B
multi-token matching, but the code verifier rejects it, because it
compares the entire header against the bare HMAC-SHA256 hex digest. -/
theorem c1_counterexample :
    schemeBSpecVerify hmacAA hmacBB hmacCC "s" "sha256=aa" "raw" = true ∧
    verifySignature hmacAA "s" "sha256=aa" "raw" = false := by
  constructor <;> decide

/-- Claim C1 (corrected): the provider-webhook verifier performs no token
splitting and computes a single candidate digest.  It accepts exactly
when the signature header and the secret are nonempty and the whole
header equals the HMAC-SHA256 hex digest of the raw body; and whenever
verification fails, the handler answers 401 without issuing any call. -/
theorem c1_single_digest_verification :
    (∀ (hmacHex : String → String → String) (secret sig raw : String),
      verifySignature hmacHex secret sig raw = true ↔
        sig ≠ "" ∧ secret ≠ "" ∧ sig = hmacHex secret raw) ∧
    (∀ (env : PFEnv) (req : PFReq), req.method = "POST" →
      verifySignature env.hmacHex env.secret req.sigHeader req.rawBody = false →
      pfHandler env req = (.unauthorized, [])) := by
  constructor
  · intro hmacHex secret sig raw
    unfold verifySignature
    split
    · rename_i h
      simp only [Bool.false_eq_true, false_iff]
      rintro ⟨h1, h2, -⟩
      rcases h with h | h
      · exact h1 h
      · exact h2 h
    · rename_i h
      push_neg at h
      simp only [Bool.and_eq_true, beq_iff_eq]
      constructor
      · rintro ⟨-, he⟩
        exact ⟨h.1, h.2, he⟩
      · rintro ⟨-, -, he⟩
        exact ⟨by rw [he], he⟩
  · intro env req hm hv
    unfold pfHandler
    simp [hm, hv]

/-- Claim C1 witness: a failing signature on a concrete request yields the
401 response. -/
theorem c1_witness : pfHandler pfenvF reqBadSig = (.unauthorized, []) := by
  exact c1_single_digest_verification.2 pfenvF reqBadSig rfl (by decide)

/-! ## Claim C2 -/

/-- Claim C2 counterexample: on the SKU `"a _P_C_S"` the first segment of
the trimmed-and-split string is `"a "`, but the decoder trims it again and
returns template reference `"a"`, so the template reference is not the
first segment verbatim. -/
theorem c2_counterexample :
    skuDecodeClaim "a _P_C_S" = some ⟨"a ", "P_C_S"⟩ ∧
    parseStructuredSku "a _P_C_S" = some ⟨"a", "P_C_S"⟩ ∧
    ("a " : String) ≠ "a" := by
  refine ⟨by decide, by decide, by decide⟩

/-- Claim C2 (corrected): the decoder trims whitespace, splits on
underscores, fails exactly when there are fewer than four segments or the
first segment is empty after trimming, and otherwise returns the trimmed
first segment as template reference together with the variant key
`normalize(productCode) ++ "_" ++ normalize(color) ++ "_" ++
normalize(size)`, where the color joins all segments strictly between
product code and size; in particular `T_P_LIGHT_BLUE_M` has middle color
`LIGHT_BLUE`. -/
theorem c2_decode_structure :
    (∀ raw, parseStructuredSku raw = skuDecodeAmended raw) ∧
    parseStructuredSku "T_P_LIGHT_BLUE_M" = some ⟨"T", "P_LIGHTBLUE_M"⟩ ∧
    joinWith '_' (((jsSplit '_' (jsTrim "T_P_LIGHT_BLUE_M")).drop 2).dropLast) =
      "LIGHT_BLUE" := by
  refine ⟨?_, by decide, by decide⟩
  intro raw
  unfold parseStructuredSku skuDecodeAmended
  by_cases h : (jsSplit '_' (jsTrim raw)).length < 4
  · simp [h]
  · by_cases h2 : jsTrim ((jsSplit '_' (jsTrim raw)).headD "") = ""
    · simp [h, h2]
    · simp [h, h2]

/-! ## Claim C3 -/

/-- Claim C3 counterexample: with the SKU `71_BC3001_WHITE_M` stated by
the claim, the normalized variant key is `BC3001_WHITE_M`, which the
static catalog (whose color segments are abbreviated, here `WHT`) does
not contain.  Both line items therefore fail to resolve, the handler
submits nothing, and the missing list names both SKUs instead of only
`99_UNKNOWN_RED_L`. -/
theorem c3_counterexample :
    shopifyHandler env0 reqWhite =
      (.noValidItems ["71_BC3001_WHITE_M", "99_UNKNOWN_RED_L"], []) ∧
    ["71_BC3001_WHITE_M", "99_UNKNOWN_RED_L"] ≠ ["99_UNKNOWN_RED_L"] := by
  exact ⟨by decide, by decide⟩

/-- Claim C3 (corrected): with the catalog-matching SKU `71_BC3001_WHT_M`
in place of `71_BC3001_WHITE_M`, the scenario holds: the submitted order
payload contains exactly one item, resolved through the catalog to
variant 24353, and the response lists `99_UNKNOWN_RED_L` as the only
missing SKU. -/
theorem c3_scenario_corrected :
    shopifyHandler env0 req0 =
      (.confirmedOk 555 ["99_UNKNOWN_RED_L"],
        [.productLookup 7 "tee",
         .fileUpload "https://cdn.example/tee.png",
         .placementHead "https://cdn.example/71_front.png",
         .placementHead "https://cdn.example/71_back.png",
         .placementHead "https://cdn.example/71_sleeve_left.png",
         .placementHead "https://cdn.example/71_sleeve_right.png",
         .orderCreate
           { recipient := { name := "Customer", address1 := "N/A", city := "N/A",
                            stateCode := "", countryCode := "US", zip := "",
                            email := "", phone := "" },
             items := [{ variantId := 24353, quantity := 1,
                         files := [{ ftype := "default", id := 101 }] }],
             externalId := "NBHL4021" },
         .orderConfirm 555]) := by
  decide

/-! ## Claim C4 -/

/-- Claim C4: a non-ok draft creation carrying the duplicate signal (the
error code `OR-13` or the duplicate message substring, as captured by
`isPrintfulExternalIdDuplicate`) yields the idempotent success outcome
with the external id, reported ok with HTTP 200; every other
draft-creation or confirmation failure yields the structured failed
outcome, also with HTTP 200 rather than an exception. -/
theorem c4_duplicate_idempotent :
    ∀ (draft confirm : HttpResp) (payload : DraftOrder) (missing : List String),
      (draft.ok = false → isPrintfulExternalIdDuplicate draft.payload = true →
        submitOrder draft confirm payload missing =
          (.dupSuccess payload.externalId missing, [.orderCreate payload]) ∧
        outcomeOk (.dupSuccess payload.externalId missing) = true ∧
        statusOf (.dupSuccess payload.externalId missing) = 200) ∧
      (draft.ok = false → isPrintfulExternalIdDuplicate draft.payload = false →
        (submitOrder draft confirm payload missing).1 = .submitFailed missing) ∧
      (draft.ok = true → draft.payload.resultId.getD 0 = 0 →
        (submitOrder draft confirm payload missing).1 = .submitFailed missing) ∧
      (draft.ok = true → draft.payload.resultId.getD 0 ≠ 0 → confirm.ok = false →
        (submitOrder draft confirm payload missing).1 = .submitFailed missing) ∧
      statusOf (.submitFailed missing) = 200 ∧
      outcomeOk (.submitFailed missing) = false := by
  intro draft confirm payload missing
  refine ⟨?_, ?_, ?_, ?_, rfl, rfl⟩
  · intro h1 h2
    exact ⟨by simp [submitOrder, h1, h2], rfl, rfl⟩
  · intro h1 h2
    simp [submitOrder, h1, h2]
  · intro h1 h2
    simp [submitOrder, h1, h2]
  · intro h1 h2 h3
    simp [submitOrder, h1, h2, h3]

/-- Claim C4 witness: both duplicate signals, the error code and the
message substring, on concrete failed draft responses. -/
theorem c4_witness :
    (submitOrder draftDup confirmOkResp payloadW [] =
        (.dupSuccess "NBHL9" [], [.orderCreate payloadW]) ∧
      outcomeOk (.dupSuccess "NBHL9" []) = true ∧
      statusOf (.dupSuccess "NBHL9" []) = 200) ∧
    (submitOrder draftDupMsg confirmOkResp payloadW [] =
        (.dupSuccess "NBHL9" [], [.orderCreate payloadW]) ∧
      outcomeOk (.dupSuccess "NBHL9" []) = true ∧
      statusOf (.dupSuccess "NBHL9" []) = 200) := by
  exact ⟨(c4_duplicate_idempotent draftDup confirmOkResp payloadW []).1 rfl (by decide),
    (c4_duplicate_idempotent draftDupMsg confirmOkResp payloadW []).1 rfl (by decide)⟩

/-! ## Claim C5 -/

/-- Claim C5 counterexample: with an upload oracle whose first call
fails, two `uploadOrReuse` invocations with the claimed source URL
`https://cdn.example/a.png` issue two upload calls, not at most one: the
failed first upload leaves the cache empty (as the claim itself
requires), so the second invocation uploads again. -/
theorem c5_counterexample :
    (runCalls failThenOk "https://cdn.example/a.png" 2
        { entries := [], uploads := 0 }).uploads = 2 ∧
    (2 : Nat) ≠ 1 := by
  exact ⟨by decide, by decide⟩

/-- Claim C5 (corrected): a cache hit returns the stored id without any
upload call; a miss with a failing upload propagates the error, counts
one upload call and leaves the cache entries unchanged; a miss with a
successful upload stores the returned id under the source URL; and when
the provider always succeeds (with a truthy id), any number of
invocations with the same URL issues at most one upload call — but a
failing first upload makes a later invocation upload again, so the
at-most-one bound holds only for successful uploads. -/
theorem c5_upload_cache :
    (∀ (oracle : Nat → String → UpResult) (st : CacheSt) (url : String) (id : Nat),
      jsHit st.entries url = some id →
      uploadOrReuse oracle st url = (.ok (some id), st)) ∧
    (∀ (oracle : Nat → String → UpResult) (st : CacheSt) (url : String),
      jsHit st.entries url = none → oracle st.uploads url = .fail →
      uploadOrReuse oracle st url =
        (.error (), { entries := st.entries, uploads := st.uploads + 1 })) ∧
    (∀ (oracle : Nat → String → UpResult) (st : CacheSt) (url : String) (n : Nat),
      jsHit st.entries url = none → oracle st.uploads url = .ok (some n) →
      uploadOrReuse oracle st url =
        (.ok (some n), { entries := (url, n) :: st.entries, uploads := st.uploads + 1 })) ∧
    (∀ (k : Nat) (oracle : Nat → String → UpResult) (url : String),
      (∀ i, ∃ n, oracle i url = .ok (some n) ∧ n ≠ 0) →
      (runCalls oracle url k { entries := [], uploads := 0 }).uploads ≤ 1) := by
  refine ⟨?_, ?_, ?_, ?_⟩
  · intro oracle st url id h
    simp [uploadOrReuse, h]
  · intro oracle st url h hf
    simp [uploadOrReuse, h, hf]
  · intro oracle st url n h hn
    simp [uploadOrReuse, h, hn]
  · intro k oracle url h
    cases k with
    | zero => simp [runCalls]
    | succ k =>
      obtain ⟨n, hn, hn0⟩ := h 0
      have hstep : (uploadOrReuse oracle { entries := [], uploads := 0 } url).2 =
          { entries := [(url, n)], uploads := 1 } := by
        simp [uploadOrReuse, jsHit, hn]
      have hhit : jsHit [(url, n)] url = some n := by
        simp [jsHit, List.lookup, hn0]
      simp only [runCalls]
      rw [hstep, runCalls_hit oracle url k _ n hhit]

/-- Claim C5 witness: a concrete hit, and two invocations under an
always-succeeding provider issuing at most one upload. -/
theorem c5_witness :
    uploadOrReuse okSeven { entries := [("u", 5)], uploads := 3 } "u" =
      (.ok (some 5), { entries := [("u", 5)], uploads := 3 }) ∧
    (runCalls okSeven "https://cdn.example/a.png" 2
        { entries := [], uploads := 0 }).uploads ≤ 1 := by
  exact ⟨c5_upload_cache.1 okSeven { entries := [("u", 5)], uploads := 3 } "u" 5 (by decide),
    c5_upload_cache.2.2.2 2 okSeven "https://cdn.example/a.png"
      (fun i => ⟨7, rfl, by decide⟩)⟩

/-! ## Claim C6 -/

/-- Claim C6: for a `package_shipped` or `order_fulfilled` event whose
external id matches the `shopify-<digits>` pattern, when the fetched
order still has fulfillable line items and fulfillment creation succeeds,
the handler creates exactly one fulfillment per shipment of the event —
with the tracking fields of `trackingOf`, including the generic
`"Carrier"` fallback — referencing all fulfillable line items, and then
marks the order fulfilled; with zero shipments it still marks the order
fulfilled. -/
theorem c6_shipment_fulfillment :
    ∀ (env : PFEnv) (req : PFReq) (body : PFBody) (digits : String) (order : PFOrder),
      req.method = "POST" →
      verifySignature env.hmacHex env.secret req.sigHeader req.rawBody = true →
      req.parsed = some body →
      (eventOf body = "package_shipped" ∨ eventOf body = "order_fulfilled") →
      matchShopifyExt body.externalId = some digits →
      env.getOrder digits = some order →
      fulfillableIds order ≠ [] →
      (∀ t, env.createOk digits t (fulfillableIds order) = true) →
      pfHandler env req =
        (.fulfilled body.shipments.length,
          (body.shipments.map fun s =>
            PFAction.createFulfillment digits (trackingOf s) (fulfillableIds order)) ++
            [.markStatus digits "fulfilled"]) := by
  intro env req body digits order hm hv hp hev hext hord hful hcr
  have hfe : (fulfillableIds order).isEmpty = false := by
    cases hfl : fulfillableIds order with
    | nil => exact absurd hfl hful
    | cons a l => rfl
  have hrun := runShipments_all_ok env digits (fulfillableIds order) body.shipments hcr
  have e1 : eventMatches handledEventPats "package_shipped" = true := by decide
  have e2 : eventMatches inProcessPats "package_shipped" = false := by decide
  have e3 : eventMatches shippedPats "package_shipped" = true := by decide
  have f1 : eventMatches handledEventPats "order_fulfilled" = true := by decide
  have f2 : eventMatches inProcessPats "order_fulfilled" = false := by decide
  have f3 : eventMatches shippedPats "order_fulfilled" = true := by decide
  rcases hev with he | he <;>
    simp [pfHandler, hm, hv, hp, resolveOrderId, hext, he, e1, e2, e3, f1, f2, f3,
      hord, hfe, hrun]

/-- Claim C6 witness: the scenario of the claim, external id
`shopify-4021` with one tracked shipment, and the same event with zero
shipments. -/
theorem c6_witness :
    pfHandler pfenvF pfreqF =
      (.fulfilled 1,
        [.createFulfillment "4021" { number := "TN1", url := "", company := "Carrier" } [11],
         .markStatus "4021" "fulfilled"]) ∧
    pfHandler pfenvF pfreqF0 = (.fulfilled 0, [.markStatus "4021" "fulfilled"]) := by
  constructor
  · exact c6_shipment_fulfillment pfenvF pfreqF body1 "4021" order11 rfl (by decide)
      rfl (Or.inl rfl) (by decide) rfl (by decide) (fun t => rfl)
  · exact c6_shipment_fulfillment pfenvF pfreqF0 body0ship "4021" order11 rfl (by decide)
      rfl (Or.inl rfl) (by decide) rfl (by decide) (fun t => rfl)

/-! ## Claim C7 -/

/-- Claim C7 counterexample: a `package_shipped` event for an order with
no fulfillable quantity is not a no-op: the handler creates no
fulfillment but still issues a state change, a status update marking the
order fulfilled. -/
theorem c7_counterexample :
    pfHandler pfenv0 pfreqF = (.alreadyFulfilled, [.markStatus "4021" "fulfilled"]) ∧
    [PFAction.markStatus "4021" "fulfilled"] ≠ ([] : List PFAction) := by
  exact ⟨by decide, by decide⟩

/-- Claim C7 (corrected): when no line item has fulfillable quantity
remaining, the handler creates no fulfillment record, but it is not a
complete no-op: it still issues one order-state change, marking the
order fulfilled, and acknowledges the event as already fulfilled. -/
theorem c7_already_fulfilled :
    ∀ (env : PFEnv) (req : PFReq) (body : PFBody) (digits : String) (order : PFOrder),
      req.method = "POST" →
      verifySignature env.hmacHex env.secret req.sigHeader req.rawBody = true →
      req.parsed = some body →
      (eventOf body = "package_shipped" ∨ eventOf body = "order_fulfilled") →
      matchShopifyExt body.externalId = some digits →
      env.getOrder digits = some order →
      fulfillableIds order = [] →
      pfHandler env req = (.alreadyFulfilled, [.markStatus digits "fulfilled"]) := by
  intro env req body digits order hm hv hp hev hext hord hful
  have hfe : (fulfillableIds order).isEmpty = true := by simp [hful]
  have e1 : eventMatches handledEventPats "package_shipped" = true := by decide
  have e2 : eventMatches inProcessPats "package_shipped" = false := by decide
  have e3 : eventMatches shippedPats "package_shipped" = true := by decide
  have f1 : eventMatches handledEventPats "order_fulfilled" = true := by decide
  have f2 : eventMatches inProcessPats "order_fulfilled" = false := by decide
  have f3 : eventMatches shippedPats "order_fulfilled" = true := by decide
  rcases hev with he | he <;>
    simp [pfHandler, hm, hv, hp, resolveOrderId, hext, he, e1, e2, e3, f1, f2, f3,
      hord, hfe]

/-- Claim C7 witness: the amended behavior on the concrete
already-fulfilled order. -/
theorem c7_witness :
    pfHandler pfenv0 pfreqF0 = (.alreadyFulfilled, [.markStatus "4021" "fulfilled"]) := by
  exact c7_already_fulfilled pfenv0 pfreqF0 body0ship "4021" order11z rfl (by decide)
    rfl (Or.inl rfl) (by decide) rfl (by decide)

/-! ## Claim C8 -/

/-- Claim C8: when no line item resolves to an item, the handler submits
no order — the request trace contains no order-creation call — and
responds with the failed no-valid-items outcome carrying the missing SKU
list, at HTTP status 200. -/
theorem c8_zero_items :
    ∀ (env : SEnv) (req : SReq) (order : ShopifyOrder),
      req.method = "POST" →
      shopifyAuthOutcome env.debugTokenEnv req.tokenParam req.hmacHeader
        (env.hmacB64 env.secret req.rawBody) = true →
      req.parsed = some order →
      (order.lineItems.map (processLineItem env)).filterMap (fun r => r.item) = [] →
      shopifyHandler env req =
        (.noValidItems
            ((order.lineItems.map (processLineItem env)).filterMap
              (fun r => r.missingEntry)),
          ((order.lineItems.map (processLineItem env)).map (fun r => r.reqs)).flatten) ∧
      statusOf (.noValidItems
        ((order.lineItems.map (processLineItem env)).filterMap
          (fun r => r.missingEntry))) = 200 ∧
      outcomeOk (.noValidItems
        ((order.lineItems.map (processLineItem env)).filterMap
          (fun r => r.missingEntry))) = false ∧
      ∀ p, TraceReq.orderCreate p ∉
        ((order.lineItems.map (processLineItem env)).map (fun r => r.reqs)).flatten := by
  intro env req order hm hauth hp hitems
  refine ⟨?_, rfl, rfl, ?_⟩
  · simp [shopifyHandler, hm, hauth, hp, hitems]
  · intro p hmem
    simp only [List.mem_flatten, List.mem_map] at hmem
    rcases hmem with ⟨l, ⟨⟨r, ⟨⟨li, hli, hre⟩, hl⟩⟩, hpl⟩⟩
    subst hl
    subst hre
    exact processLineItem_no_orderCreate env li p hpl

/-- Claim C8 witness: the concrete order whose single SKU decodes to
nothing is reported failed with its missing list and an empty trace. -/
theorem c8_witness :
    shopifyHandler env0 reqBad = (.noValidItems ["nope"], []) := by
  exact (c8_zero_items env0 reqBad orderBad rfl (by decide) rfl (by decide)).1

/-! ## Claim C9 -/

/-- Claim C9: with `DEBUG_TOKEN` unset or empty the bypass is
unreachable and the gate accepts exactly a present nonempty HMAC header
equal to the expected digest; a configured bypass token validates
exactly the equal token parameter; and whenever the gate rejects, the
handler answers 401 with an empty trace, before the body is processed. -/
theorem c9_auth_gate :
    ∀ (dbgEnv tokenParam hmacHeader : Option String) (digest : String),
      ((dbgEnv = none ∨ dbgEnv = some "") →
        (shopifyAuthOutcome dbgEnv tokenParam hmacHeader digest = true ↔
          hmacHeader = some digest ∧ digest ≠ "")) ∧
      (∀ t : String, t ≠ "" →
        (debugBypassActive (some t) tokenParam = true ↔ tokenParam = some t)) ∧
      (∀ (env : SEnv) (req : SReq), req.method = "POST" →
        shopifyAuthOutcome env.debugTokenEnv req.tokenParam req.hmacHeader
          (env.hmacB64 env.secret req.rawBody) = false →
        shopifyHandler env req = (.unauthorized, []) ∧ statusOf .unauthorized = 401) := by
  intro dbgEnv tokenParam hmacHeader digest
  refine ⟨?_, ?_, ?_⟩
  · intro h
    have hb : debugBypassActive dbgEnv tokenParam = false := by
      cases tokenParam with
      | none => rfl
      | some t =>
        by_cases ht : t = ""
        · simp [debugBypassActive, ht]
        · rcases h with h | h <;> subst h <;>
            simp [debugBypassActive, ht, Ne.symm ht]
    cases hmacHeader with
    | none => simp [shopifyAuthOutcome, hb]
    | some hh =>
      by_cases hhe : hh = ""
      · subst hhe
        have hl : shopifyAuthOutcome dbgEnv tokenParam (some "") digest = false := by
          simp [shopifyAuthOutcome, hb]
        rw [hl]
        simp only [Bool.false_eq_true, false_iff]
        rintro ⟨h1, h2⟩
        exact h2 (Option.some.inj h1).symm
      · by_cases hde : digest = hh
        · subst hde
          simp [shopifyAuthOutcome, hb, hhe]
        · simp [shopifyAuthOutcome, hb, hhe, hde, Ne.symm hde]
  · intro t ht
    cases tokenParam with
    | none => simp [debugBypassActive]
    | some u =>
      by_cases hu : u = t
      · subst hu
        simp [debugBypassActive, ht]
      · simp [debugBypassActive, hu, show ¬ t = u from fun hh => hu hh.symm]
  · intro env req hm hf
    exact ⟨by simp [shopifyHandler, hm, hf], rfl⟩

/-- Claim C9 witness: with no `DEBUG_TOKEN`, a correct digest header is
accepted; a configured token validates the equal parameter; and a
request without an HMAC header gets the 401 response with no calls. -/
theorem c9_witness :
    shopifyAuthOutcome none (some "x") (some "dg") "dg" = true ∧
    debugBypassActive (some "tok") (some "tok") = true ∧
    (shopifyHandler env0 reqNoHmac = (.unauthorized, []) ∧ statusOf .unauthorized = 401) := by
  refine ⟨?_, ?_, ?_⟩
  · exact ((c9_auth_gate none (some "x") (some "dg") "dg").1 (Or.inl rfl)).mpr
      ⟨rfl, by decide⟩
  · exact ((c9_auth_gate (some "tok") (some "tok") (some "dg") "dg").2.1 "tok"
      (by decide)).mpr rfl
  · exact (c9_auth_gate none (some "x") none "dg").2.2 env0 reqNoHmac rfl (by decide)

/-! ## Claim C10 -/

/-- Claim C10: with no configured number-field keys, when the
name-matched scan does not decide the outcome, the extractor returns the
first all-digit property value regardless of the property name; and any
extracted number sends the line-item pipeline down the
personalization-overlay path, probing the number-artwork URL. -/
theorem c10_digit_fallback :
    (∀ (keysRaw : String) (li : LineItem),
      configuredNumberKeys keysRaw = [] →
      numberScanNamed [] (propsOf li) = none →
      extractCustomNumberFromLineItem keysRaw li =
        ((propsOf li).find? fun p => isDigitsStr (jsTrim p.value)).map
          fun p => jsTrim p.value) ∧
    (∀ (env : SEnv) (li : LineItem) (ps : ParsedSku) (vId : Nat) (handle n : String),
      parseStructuredSku li.sku = some ps →
      lookupVariant ps.variantKey = some vId →
      env.handleOf li.productId = some handle →
      extractCustomNumberFromLineItem env.numberKeysRaw li = some n →
      TraceReq.numberHead (numberArtUrl (artBaseOf env) ps.templateRef n) ∈
        (processLineItem env li).reqs) := by
  constructor
  · intro keysRaw li hk hs
    simp [extractCustomNumberFromLineItem, hk, hs, numberScanAny_eq_find]
  · intro env li ps vId handle n hp hv hh hn
    unfold processLineItem
    simp only [hp, hv, hh, hn]
    by_cases hho : env.headOk (numberArtUrl (artBaseOf env) ps.templateRef n) = true
    · simp only [hho, if_true]
      cases hcu : env.compositeUpload (deriveRemotePathFromSourceUrl
          (artUrlFromHandle (artBaseOf env) handle)
          (compositeFileName handle ps.templateRef n)) with
      | none => simp [hcu]
      | some u =>
        simp only [hcu, finishLineItem]
        cases hu2 : env.uploadFile u <;> simp [hu2]
    · simp only [Bool.not_eq_true] at hho
      simp only [hho, Bool.false_eq_true, if_false, finishLineItem]
      cases hu2 : env.uploadFile (artUrlFromHandle (artBaseOf env) handle) <;>
        simp [hu2]

/-- Claim C10 witness: the property named `foo` with value `42` is picked
by the fallback, and the pipeline probes the number-artwork URL for it. -/
theorem c10_witness :
    extractCustomNumberFromLineItem "" li10 = some "42" ∧
    TraceReq.numberHead "https://cdn.example/71_42.png" ∈
      (processLineItem env0 li10).reqs := by
  constructor
  · exact c10_digit_fallback.1 "" li10 (by decide) (by decide)
  · exact c10_digit_fallback.2 env0 li10 ⟨"71", "BC3001_WHT_M"⟩ 24353 "tee" "42"
      (by decide) (by decide) rfl (by decide)

end PrintfulBridge
